import Mathlib

/-!
Verification development for the zone_model_1 compartment-fire model.

The numeric core of the repository is embedded shallowly over the real
numbers: pure functions of `hrr.py`, `core.py`, `char_regression.py`,
`charring.py` and `heat_transfer_1d_plus_qinc.py` become Lean functions, and
the time-stepping loop of `src/zone_model_1/main.py` becomes an explicit
state-passing step function.  Python float arithmetic is modelled by exact
real arithmetic; `x ** 0.5`, `x ** (1/3)` and `x ** (1/1.6)` are modelled by
real rpow.  A Python float division whose denominator can be zero at run
time (the `230 / char_thick ** 0.5` in `char_density`, the one failure point
the claims are about) is modelled as an `Option`-valued function, and the
loop step propagates that failure.  External SciPy routines that the loop
calls (`interp1d` lookups, `simpson` quadrature, `gaussian_filter1d`
smoothing) are not code of this repository; they enter the model as opaque
function-valued parameters of the configuration, so every theorem below
holds for all of their possible behaviours.
-/

noncomputable section

open scoped Classical

namespace ZoneModelOne

/-! ## hrr.py -/

/-- Embedding of `hrr.HRR_flash`: flashover HRR from opening factor,
`7.8 * At + 378 * Av * Hv ** 0.5`. -/
def HRR_flash (At Av Hv : ℝ) : ℝ :=
  7.8 * At + 378 * Av * Hv ^ (0.5 : ℝ)

/-- Embedding of `hrr.Time_to_grow`: `(HRR / growth_rate) ** 0.5`. -/
def Time_to_grow (growth_rate HRR : ℝ) : ℝ :=
  (HRR / growth_rate) ^ (0.5 : ℝ)

/-- Embedding of `hrr.FLE_grow`: `(1 / 3) * growth_rate * t_grow ** 3`. -/
def FLE_grow (t_grow growth_rate : ℝ) : ℝ :=
  1 / 3 * growth_rate * t_grow ^ 3

/-- Embedding of `hrr.vent_cont_HRR`: `1130 * Av * Hv ** 0.5`. -/
def vent_cont_HRR (Av Hv : ℝ) : ℝ :=
  1130 * Av * Hv ^ (0.5 : ℝ)

/-- Embedding of `hrr.fuel_cont_HRR`: `Af * HRRPUA`. -/
def fuel_cont_HRR (Af HRRPUA : ℝ) : ℝ :=
  Af * HRRPUA

/-- Embedding of `hrr.steady_burn_time`: `((0.7 * FLE) - FLE_grow_val) / Q_max`. -/
def steady_burn_time (FLE_grow_val FLE Q_max : ℝ) : ℝ :=
  (0.7 * FLE - FLE_grow_val) / Q_max

/-- Embedding of `hrr.decay_time`: `(0.6 * FLE) / Q_max`. -/
def decay_time (FLE Q_max : ℝ) : ℝ :=
  0.6 * FLE / Q_max

/-- Embedding of `hrr.t_squared_fire`: `growth_rate * time ** 2`. -/
def t_squared_fire (growth_rate time : ℝ) : ℝ :=
  growth_rate * time ^ 2

/-- Python 3 `round` on a real number: round half to even (banker's
rounding), as used in `time_vs_HRR`'s `range(0, round(t_grow), 1)`. -/
def pyRound (x : ℝ) : ℤ :=
  if Int.fract x < 1 / 2 then ⌊x⌋
  else if 1 / 2 < Int.fract x then ⌊x⌋ + 1
  else if Even ⌊x⌋ then ⌊x⌋ else ⌊x⌋ + 1

/-- Total surface area computed at the head of `hrr.time_vs_HRR`:
`wall_area + ceiling_area + floor_area` with
`wall_area = 2 * (b + d) * h - opening_area`. -/
def total_surf_area_of (b d h H_o B_o : ℝ) : ℝ :=
  2 * (b + d) * h - H_o * B_o + b * d + b * d

/-- Total fire load energy in `hrr.time_vs_HRR`: `FLE = FLED * floor_area`. -/
def FLE_of (b d FLED : ℝ) : ℝ :=
  FLED * (b * d)

/-- End-of-growth HRR in `hrr.time_vs_HRR`: `Q_end_grow = min(Q_fo, Q_vc, Q_fc)`. -/
def Q_end_grow_of (b d h H_o B_o HRRPUA : ℝ) : ℝ :=
  min (HRR_flash (total_surf_area_of b d h H_o B_o) (H_o * B_o) H_o)
    (min (vent_cont_HRR (H_o * B_o) H_o) (fuel_cont_HRR (b * d) HRRPUA))

/-- Maximum HRR in `hrr.time_vs_HRR`: `Q_max = min(Q_vc, Q_fc)`. -/
def Q_max_of (b d H_o B_o HRRPUA : ℝ) : ℝ :=
  min (vent_cont_HRR (H_o * B_o) H_o) (fuel_cont_HRR (b * d) HRRPUA)

/-- Growth time in `hrr.time_vs_HRR`: `t_grow = Time_to_grow(alpha, Q_end_grow)`. -/
def t_grow_of (b d h H_o B_o HRRPUA alpha : ℝ) : ℝ :=
  Time_to_grow alpha (Q_end_grow_of b d h H_o B_o HRRPUA)

/-- Steady-burning duration in `hrr.time_vs_HRR`:
`t_steady = steady_burn_time(FLE_grow(t_grow, alpha), FLE, Q_max)`. -/
def t_steady_of (b d h H_o B_o HRRPUA alpha FLED : ℝ) : ℝ :=
  steady_burn_time (FLE_grow (t_grow_of b d h H_o B_o HRRPUA alpha) alpha)
    (FLE_of b d FLED) (Q_max_of b d H_o B_o HRRPUA)

/-- Decay duration in `hrr.time_vs_HRR`: `t_decay = decay_time(FLE, Q_max)`. -/
def t_decay_of (b d H_o B_o HRRPUA FLED : ℝ) : ℝ :=
  decay_time (FLE_of b d FLED) (Q_max_of b d H_o B_o HRRPUA)

/-- Embedding of `hrr.time_vs_HRR`: the generated piecewise HRR curve as a
pair of parallel control-point lists (times in seconds, HRR in kW).
Per-second samples of `alpha * t ** 2` for `t` in `range(0, round(t_grow))`,
then the plateau start `(t_grow + 1, Q_max)`, the plateau end
`(t_grow + t_steady, Q_max)`, the decay end
`(t_grow + t_steady + t_decay, 0)`, and the fixed 4-hour tail `(14400, 0)`. -/
def time_vs_HRR (b d h H_o B_o HRRPUA alpha FLED : ℝ) : List ℝ × List ℝ :=
  let t_grow := t_grow_of b d h H_o B_o HRRPUA alpha
  let Q_max := Q_max_of b d H_o B_o HRRPUA
  let t_steady := t_steady_of b d h H_o B_o HRRPUA alpha FLED
  let t_decay := t_decay_of b d H_o B_o HRRPUA FLED
  let r := (pyRound t_grow).toNat
  ((List.range r).map (fun k : ℕ => (k : ℝ)) ++
      [t_grow + 1, t_grow + t_steady, t_grow + t_steady + t_decay, 14400],
    (List.range r).map (fun k : ℕ => t_squared_fire alpha (k : ℝ)) ++
      [Q_max, Q_max, 0, 0])

/-- Trapezoidal rule over an explicit list of `(x, y)` points, the quadrature
the spec's round-trip property applies to the generated control points. -/
def trapzP : List (ℝ × ℝ) → ℝ
  | [] => 0
  | [_] => 0
  | a :: b :: rest => (b.1 - a.1) * (a.2 + b.2) / 2 + trapzP (b :: rest)

/-- Trapezoidal integral of parallel abscissa/ordinate lists. -/
def trapz (x y : List ℝ) : ℝ :=
  trapzP (x.zip y)

/-! ## core.py -/

/-- Embedding of `core.q_o_c_calc`: convective opening loss
`0.5 * A_o * c_p * (Tf - Tinf) * sqrt(H_o)`. -/
def q_o_c_calc (H_o A_o c_p Tf Tinf : ℝ) : ℝ :=
  0.5 * A_o * c_p * (Tf - Tinf) * Real.sqrt H_o

/-- Embedding of `core.q_o_r_calc`: radiative opening loss
`A_o * Ef * 5.67e-8 * (Tf ** 4 - Tinf ** 4)`. -/
def q_o_r_calc (A_o Ef Tf Tinf : ℝ) : ℝ :=
  A_o * Ef * 5.67e-8 * (Tf ^ 4 - Tinf ^ 4)

/-- Embedding of `core.q_w`: convective plus radiative flux to a boundary,
`hc * (Tf - Tw) + E_net * 5.67e-8 * (Tf ** 4 - Tw ** 4)`. -/
def q_w (Tf Tw hc E_net : ℝ) : ℝ :=
  hc * (Tf - Tw) + E_net * 5.67e-8 * (Tf ^ 4 - Tw ^ 4)

/-- Embedding of `core.gas_energy_balance`: `HRR - (Q_w + Q_o_c + Q_o_r)`. -/
def gas_energy_balance (HRR Qw Q_o_c Q_o_r : ℝ) : ℝ :=
  HRR - (Qw + Q_o_c + Q_o_r)

/-- Embedding of `core.delta_gas_temp`: `(Q_gas * dt) / (rho_air * c_p * V_gas)`. -/
def delta_gas_temp (Q_gas dt rho_air c_p V_gas : ℝ) : ℝ :=
  Q_gas * dt / (rho_air * c_p * V_gas)

/-- Embedding of `core.wall_rad_hf`: radiant flux via a spherical-equivalent
path length `((gas_volume * 3) / (4 * pi)) ** (1/3)`. -/
def wall_rad_hf (gas_volume rad_fraction HRR : ℝ) : ℝ :=
  rad_fraction * HRR /
    (4 * Real.pi * ((gas_volume * 3 / (4 * Real.pi)) ^ ((1 : ℝ) / 3)) ^ 2)

/-- Embedding of `core.fire_emissivity`: `1 - exp(-1.1 * h)`. -/
def fire_emissivity (h : ℝ) : ℝ :=
  1 - Real.exp (-1.1 * h)

/-! ## heat_transfer_1d_plus_qinc.py -/

/-- Embedding of `heat_transfer_1d_plus_qinc.update_wall_temp_array`.
The Python routine writes into a scratch array `T_new` (interior nodes from
the heat equation, then the exposed node 0, then the insulated node `N - 1`),
copies it, appends to a history list and returns the copy; since every index
`0 .. N-1` is assigned exactly once per call, the returned array is the
pure function of `T` written here.  The scratch array and the history list
are therefore not part of the embedding. -/
def update_wall_temp_array (T : List ℝ)
    (alpha dt dx h Tg epsilon sigma rho c : ℝ) (N : ℕ) (q_inc : ℝ) : List ℝ :=
  (List.range N).map fun i =>
    if i = 0 then
      T.getD 0 0 +
        ((h * (Tg - T.getD 0 0) + epsilon * sigma * (Tg ^ 4 - T.getD 0 0 ^ 4) + q_inc)
            * dt / (rho * c * dx)
          + alpha * dt / dx ^ 2 * (T.getD 1 0 - T.getD 0 0))
    else if i = N - 1 then
      T.getD (N - 1) 0 + alpha * dt / dx ^ 2 * (T.getD (N - 2) 0 - T.getD (N - 1) 0)
    else
      T.getD i 0 + alpha * dt / dx ^ 2 *
        (T.getD (i + 1) 0 - 2 * T.getD i 0 + T.getD (i - 1) 0)

/-- Embedding of `heat_transfer_1d_plus_qinc.ht_dx_dt_sub`:
`dx = L / (N - 1)` and `dt = (0.5 * dx ** 2 / alpha) / 2`. -/
def ht_dx_dt_sub (L : ℝ) (N : ℕ) (alpha : ℝ) : ℝ × ℝ :=
  let dx := L / ((N : ℝ) - 1)
  (dx, 0.5 * dx ^ 2 / alpha / 2)

/-- Embedding of `heat_transfer_1d_plus_qinc.alpha_calc`: `k / (rho * c)`. -/
def alpha_calc (k rho c : ℝ) : ℝ :=
  k / (rho * c)

/-! ## char_regression.py and charring.py -/

/-- Embedding of `char_regression.char_reg_HRR`:
`regression_rate * char_density * char_HoC`. -/
def char_reg_HRR (char_density regression_rate char_HoC : ℝ) : ℝ :=
  regression_rate * char_density * char_HoC

/-- Embedding of `char_regression.char_density`: `230 / char_thick ** 0.5`.
The Python float division raises `ZeroDivisionError` when
`char_thick ** 0.5` is zero, so the embedding is `Option`-valued with `none`
exactly on that failure. -/
def char_density (char_thick : ℝ) : Option ℝ :=
  if char_thick ^ (0.5 : ℝ) = 0 then none
  else some (230 / char_thick ^ (0.5 : ℝ))

/-- Embedding of `charring.char_depth_integral`: squares the temperature
history, integrates it over the time history with SciPy's composite Simpson
rule, and rescales by `(integral / 1.35e5) ** (1 / 1.6)`.  The Simpson
quadrature is external SciPy code, passed in as the opaque `simpsFn`. -/
def char_depth_integral (simpsFn : List ℝ → List ℝ → ℝ)
    (Temp time : List ℝ) : ℝ :=
  (simpsFn (Temp.map fun x => x ^ 2) time / 1.35e5) ^ ((1 : ℝ) / 1.6)

/-! ## main.py: configuration

The run configuration of `main.main`.  Scalar fields are the keyword
arguments of `main` that the time loop reads.  The remaining fields stand
for inputs the loop consumes whose construction is not code under `src/`:

* `HRR_interp` — the content-HRR lookup `HRR_interp(time_s)` in W, a SciPy
  `interp1d` built either from the generated curve or from the `Input.xlsx`
  prescribed table;
* `char_reg_interp` — the SciPy `interp1d` char-surface-regression lookup
  built from `[0, start_dec, end_dec, end_time]` and `[0, 0, regress,
  regress]`;
* `ceiling_ignition_time` — the lining-ignition time; in `main.py` it is
  returned by `RHR.time_vs_hrr`, a variant of `hrr.time_vs_HRR` whose
  source is absent from `src/`, so it is kept as an input here;
* `simpsFn` and `smooth` — SciPy's `simpson` quadrature and
  `gaussian_filter1d(-, sigma=1.5)` smoothing, external library code.

All loop-level theorems below are proved for every value of these opaque
fields. -/
structure Config where
  b : ℝ
  d : ℝ
  h : ℝ
  H_o : ℝ
  B_o : ℝ
  T_inf : ℝ
  T_f0 : ℝ
  wood_density : ℝ
  wood_Hoc : ℝ
  ceiling_exposed : ℝ
  char_HoC : ℝ
  c_p : ℝ
  E_net : ℝ
  rho_air : ℝ
  conv_fract : ℝ
  k : ℝ
  rho : ℝ
  c : ℝ
  T0_wall : ℝ
  L : ℝ
  N : ℕ
  k_ceil : ℝ
  rho_ceil : ℝ
  c_ceil : ℝ
  T0_ceil : ℝ
  L_ceil : ℝ
  N_ceil : ℕ
  k_floor : ℝ
  rho_floor : ℝ
  c_floor : ℝ
  T0_floor : ℝ
  L_floor : ℝ
  N_floor : ℕ
  hc : ℝ
  sigma : ℝ
  ceiling_ignition_time : ℝ
  HRR_interp : ℝ → ℝ
  char_reg_interp : ℝ → ℝ
  simpsFn : List ℝ → List ℝ → ℝ
  smooth : List ℝ → List ℝ

/-- Geometry derived in `main.main`: `opening_area = H_o * B_o`. -/
def opening_area (p : Config) : ℝ := p.H_o * p.B_o

/-- Geometry derived in `main.main`: `wall_area = 2 * (b + d) * h - opening_area`. -/
def wall_area (p : Config) : ℝ := 2 * (p.b + p.d) * p.h - opening_area p

/-- Geometry derived in `main.main`: `ceiling_area = b * d`. -/
def ceiling_area (p : Config) : ℝ := p.b * p.d

/-- Geometry derived in `main.main`: `floor_area = b * d`. -/
def floor_area (p : Config) : ℝ := p.b * p.d

/-- Geometry derived in `main.main`: `gas_volume = b * d * h`. -/
def gas_volume (p : Config) : ℝ := p.b * p.d * p.h

/-- Fire emissivity computed once in `main.main`: `Ef = fire_emissivity(h)`. -/
def Ef (p : Config) : ℝ := fire_emissivity p.h

/-- Thermal diffusivity of the wall, `alpha_wall = alpha_calc(k, rho, c)`. -/
def alpha_wall (p : Config) : ℝ := alpha_calc p.k p.rho p.c

/-- Thermal diffusivity of the ceiling. -/
def alpha_ceil (p : Config) : ℝ := alpha_calc p.k_ceil p.rho_ceil p.c_ceil

/-- Thermal diffusivity of the floor. -/
def alpha_floor (p : Config) : ℝ := alpha_calc p.k_floor p.rho_floor p.c_floor

/-- Wall spatial step, first component of `ht_dx_dt_sub(L, N, alpha_wall)`. -/
def dx_wall (p : Config) : ℝ := (ht_dx_dt_sub p.L p.N (alpha_wall p)).1

/-- Ceiling spatial step. -/
def dx_ceil (p : Config) : ℝ := (ht_dx_dt_sub p.L_ceil p.N_ceil (alpha_ceil p)).1

/-- Floor spatial step. -/
def dx_floor (p : Config) : ℝ := (ht_dx_dt_sub p.L_floor p.N_floor (alpha_floor p)).1

/-- Wall stability time step `dt1`, second component of `ht_dx_dt_sub`. -/
def dt_wall (p : Config) : ℝ := (ht_dx_dt_sub p.L p.N (alpha_wall p)).2

/-- Ceiling stability time step `dt2`. -/
def dt_ceil (p : Config) : ℝ := (ht_dx_dt_sub p.L_ceil p.N_ceil (alpha_ceil p)).2

/-- Floor stability time step `dt3`. -/
def dt_floor (p : Config) : ℝ := (ht_dx_dt_sub p.L_floor p.N_floor (alpha_floor p)).2

/-- The single shared loop step of `main.main`: `dt = min(dt1, dt2, dt3)`. -/
def dt_min (p : Config) : ℝ := min (dt_wall p) (min (dt_ceil p) (dt_floor p))

/-- Ventilation-controlled limit computed once before the loop:
`HRR_VC_lim = vent_cont_hrr(opening_area, H_o) * 1000` in W.  The lowercase
`vent_cont_hrr` that `main.py` imports is from the `hrr` module variant
absent from `src/`; the spec and the `src` `hrr.vent_cont_HRR` give the
identical formula `1130 * Av * sqrt(Hv)` kW, which is used here. -/
def HRR_VC_lim (p : Config) : ℝ := vent_cont_HRR (opening_area p) p.H_o * 1000

/-! ## main.py: loop state

One step of the loop mutates the gas temperature, the three boundary
temperature arrays, the carried `MLR` and `char_rho` feedback scalars, and
appends to the output history arrays. -/
structure LoopState where
  T_f : ℝ
  T_wall : List ℝ
  T_ceil : List ℝ
  T_floor : List ℝ
  MLR : ℝ
  char_rho : ℝ
  time_hist : List ℝ
  gas_hist : List ℝ
  char_depth : List ℝ
  charring_hist : List ℝ
  MLR_hist : List ℝ
  wood_hist : List ℝ
  total_hist : List ℝ
  ext_hist : List ℝ

/-- State before the first loop iteration of `main.main`: uniform boundary
temperature arrays and the initial entries appended to the output arrays
(`output_char_depth_arr` starts as the array `[0]`). -/
def initState (p : Config) : LoopState where
  T_f := p.T_f0
  T_wall := List.replicate p.N p.T0_wall
  T_ceil := List.replicate p.N_ceil p.T0_ceil
  T_floor := List.replicate p.N_floor p.T0_floor
  MLR := 0
  char_rho := 0
  time_hist := [0]
  gas_hist := [p.T_f0]
  char_depth := [0]
  charring_hist := [0]
  MLR_hist := [0]
  wood_hist := [0]
  total_hist := [0]
  ext_hist := [0]

/-- Loop time of step `i`: `time_s = i * dt`. -/
def stepTime (p : Config) (i : ℕ) : ℝ := (i : ℝ) * dt_min p

/-- Content HRR of step `i`: `HRR_content = HRR_interp(time_s)` in W. -/
def HRR_content_at (p : Config) (i : ℕ) : ℝ := p.HRR_interp (stepTime p i)

/-- Structural (wood) HRR of step `i`, from the state carried out of the
previous step: zero unless `time_s > ceiling_ignition_time`, otherwise
`HRR_struct + HRR_char_reg` with
`HRR_struct = MLR * wood_Hoc * ceiling_area * ceiling_exposed * 1000` and
`HRR_char_reg = char_reg_HRR(char_rho, char_reg_interp(time_s) / (60 * 1000),
char_HoC * 1000) * ceiling_area * ceiling_exposed`. -/
def HRR_wood_at (p : Config) (i : ℕ) (s : LoopState) : ℝ :=
  if p.ceiling_ignition_time < stepTime p i then
    s.MLR * p.wood_Hoc * ceiling_area p * p.ceiling_exposed * 1000 +
      char_reg_HRR s.char_rho (p.char_reg_interp (stepTime p i) / (60 * 1000))
        (p.char_HoC * 1000) * ceiling_area p * p.ceiling_exposed
  else 0

/-- Ventilation-capped total HRR of step `i`:
`HRR_total = max(min(HRR_wood + HRR_content, HRR_VC_lim), 0.0)`. -/
def HRR_total_at (p : Config) (i : ℕ) (s : LoopState) : ℝ :=
  max (min (HRR_wood_at p i s + HRR_content_at p i) (HRR_VC_lim p)) 0

/-- Externally escaping HRR of step `i`:
`HRR_ext = max(0.0, (HRR_wood + HRR_content) - HRR_VC_lim)`. -/
def HRR_ext_at (p : Config) (i : ℕ) (s : LoopState) : ℝ :=
  max 0 (HRR_wood_at p i s + HRR_content_at p i - HRR_VC_lim p)

/-- Convective HRR of step `i`: `HRR_conv = HRR_total * conv_fract`. -/
def HRR_conv_at (p : Config) (i : ℕ) (s : LoopState) : ℝ :=
  HRR_total_at p i s * p.conv_fract

/-- Incident radiant flux on the boundaries:
`q_rad_wall = wall_rad_hf(gas_volume, 1 - conv_fract, HRR_conv)`. -/
def q_rad_at (p : Config) (i : ℕ) (s : LoopState) : ℝ :=
  wall_rad_hf (gas_volume p) (1 - p.conv_fract) (HRR_conv_at p i s)

/-- Updated wall temperature array of step `i`. -/
def newWall (p : Config) (i : ℕ) (s : LoopState) : List ℝ :=
  update_wall_temp_array s.T_wall (alpha_wall p) (dt_min p) (dx_wall p) p.hc
    s.T_f p.E_net p.sigma p.rho p.c p.N (q_rad_at p i s)

/-- Updated ceiling temperature array of step `i`. -/
def newCeil (p : Config) (i : ℕ) (s : LoopState) : List ℝ :=
  update_wall_temp_array s.T_ceil (alpha_ceil p) (dt_min p) (dx_ceil p) p.hc
    s.T_f p.E_net p.sigma p.rho_ceil p.c_ceil p.N_ceil (q_rad_at p i s)

/-- Updated floor temperature array of step `i`. -/
def newFloor (p : Config) (i : ℕ) (s : LoopState) : List ℝ :=
  update_wall_temp_array s.T_floor (alpha_floor p) (dt_min p) (dx_floor p) p.hc
    s.T_f p.E_net p.sigma p.rho_floor p.c_floor p.N_floor (q_rad_at p i s)

/-- Boundary losses of step `i`, each `q_w(T_f, Ts, hc, E_net) * area` with
`Ts` the exposed-surface entry of the freshly updated boundary array. -/
def Q_w_total_at (p : Config) (i : ℕ) (s : LoopState) : ℝ :=
  q_w s.T_f ((newWall p i s).getD 0 0) p.hc p.E_net * wall_area p +
    q_w s.T_f ((newCeil p i s).getD 0 0) p.hc p.E_net * ceiling_area p +
    q_w s.T_f ((newFloor p i s).getD 0 0) p.hc p.E_net * floor_area p

/-- Convective opening loss of the step:
`Q_o_c = q_o_c_calc(H_o, opening_area, c_p, T_f, T_inf)`. -/
def Q_o_c_at (p : Config) (s : LoopState) : ℝ :=
  q_o_c_calc p.H_o (opening_area p) p.c_p s.T_f p.T_inf

/-- Radiative opening loss of the step, with the literal `Tinf=0.0` of the
source: `Q_o_r = q_o_r_calc(opening_area, Ef, T_f, Tinf=0.0)`. -/
def Q_o_r_at (p : Config) (s : LoopState) : ℝ :=
  q_o_r_calc (opening_area p) (Ef p) s.T_f 0

/-- Gas temperature increment of step `i`:
`dT_gas = delta_gas_temp(gas_energy_balance(HRR_conv, Q_w_total, Q_o_c,
Q_o_r), dt, rho_air, c_p, gas_volume)`. -/
def dT_gas_at (p : Config) (i : ℕ) (s : LoopState) : ℝ :=
  delta_gas_temp
    (gas_energy_balance (HRR_conv_at p i s) (Q_w_total_at p i s) (Q_o_c_at p s)
      (Q_o_r_at p s))
    (dt_min p) p.rho_air p.c_p (gas_volume p)

/-- New gas temperature of step `i`: `T_f = max(293.0, T_f + dT_gas)`. -/
def newTf (p : Config) (i : ℕ) (s : LoopState) : ℝ :=
  max 293 (s.T_f + dT_gas_at p i s)

/-- Time history after the step's append of `time_s`. -/
def newTimeHist (p : Config) (i : ℕ) (s : LoopState) : List ℝ :=
  s.time_hist ++ [stepTime p i]

/-- Gas-temperature history after the step's append of the new `T_f`. -/
def newGasHist (p : Config) (i : ℕ) (s : LoopState) : List ℝ :=
  s.gas_hist ++ [newTf p i s]

/-- Char-depth array after the step: the fresh history integral (computed
on the updated histories, times converted to minutes) is appended and the
whole array is passed through the Gaussian smoothing filter. -/
def newDepth (p : Config) (i : ℕ) (s : LoopState) : List ℝ :=
  p.smooth (s.char_depth ++
    [char_depth_integral p.simpsFn (newGasHist p i s)
      ((newTimeHist p i s).map fun x => x / 60)])

/-- Charring rate computed in the post-ignition branch:
`(output_char_depth_arr[i] - output_char_depth_arr[i - 1]) / (dt / 60.0)`. -/
def charring_rate_at (p : Config) (i : ℕ) (s : LoopState) : ℝ :=
  ((newDepth p i s).getD i 0 - (newDepth p i s).getD (i - 1) 0) / (dt_min p / 60)

/-- Common tail of one loop iteration, parameterised by the charring rate
`cr` chosen by the ignition branch and by the carried char density `crho`
(unchanged pre-ignition, recomputed post-ignition).  The new `MLR` is
`(charring_rate / (60.0 * 1000.0)) * wood_density`, and every output array
receives its step-`i` entry. -/
def advance (p : Config) (i : ℕ) (s : LoopState) (cr crho : ℝ) : LoopState where
  T_f := newTf p i s
  T_wall := newWall p i s
  T_ceil := newCeil p i s
  T_floor := newFloor p i s
  MLR := cr / (60 * 1000) * p.wood_density
  char_rho := crho
  time_hist := newTimeHist p i s
  gas_hist := newGasHist p i s
  char_depth := newDepth p i s
  charring_hist := s.charring_hist ++ [cr]
  MLR_hist := s.MLR_hist ++ [cr / (60 * 1000) * p.wood_density]
  wood_hist := s.wood_hist ++ [HRR_wood_at p i s]
  total_hist := s.total_hist ++ [HRR_total_at p i s]
  ext_hist := s.ext_hist ++ [HRR_ext_at p i s]

/-- One iteration of the main time-stepping loop at index `i`.  Before the
lining-ignition time the charring rate is `0.0` and `char_rho` is carried
unchanged; otherwise the charring rate is differenced from the smoothed
char-depth array and `char_rho = char_density(output_char_depth_arr[i])`,
whose division by zero aborts the run (`none`). -/
def mainStep (p : Config) (i : ℕ) (s : LoopState) : Option LoopState :=
  if stepTime p i < p.ceiling_ignition_time then
    some (advance p i s 0 s.char_rho)
  else
    match char_density ((newDepth p i s).getD i 0) with
    | none => none
    | some cd => some (advance p i s (charring_rate_at p i s) cd)

/-- State after the first `n` iterations of the loop (iteration indices
`1 .. n`, as in `for i in range(1, round(steps) + 1)`). -/
def runLoop (p : Config) : ℕ → Option LoopState
  | 0 => some (initState p)
  | n + 1 => (runLoop p n).bind (mainStep p (n + 1))

/-- Exact discrepancy between the trapezoidal integral of the generated HRR
curve and the total fire load energy, written out for growth-sample count
`r = mR + 1`: discretization surplus of the growth samples, minus the exact
growth energy, plus the bridge trapezoid from the last growth sample to the
plateau start, minus the plateau-start overlap `Q_max`. -/
def trapzErr (b d h H_o B_o HRRPUA alpha mR : ℝ) : ℝ :=
  alpha * (mR ^ 3 / 3 + mR / 6) -
    alpha * (t_grow_of b d h H_o B_o HRRPUA alpha) ^ 3 / 3 +
    (t_grow_of b d h H_o B_o HRRPUA alpha + 1 - mR) *
      (alpha * mR ^ 2 + Q_max_of b d H_o B_o HRRPUA) / 2 -
    Q_max_of b d H_o B_o HRRPUA

/-! ## Concrete fixture configurations

Rational-valued configurations used to instantiate the hypotheses of the
loop theorems on explicit inputs.  Geometry and material numbers are chosen
so that every derived quantity is rational: each boundary has two nodes of
thickness one and diffusivity `1/4`, so each per-boundary stability step and
hence the shared loop step is exactly one second. -/
def cfgW : Config where
  b := 1
  d := 1
  h := 1
  H_o := 1
  B_o := 1
  T_inf := 293
  T_f0 := 293
  wood_density := 450
  wood_Hoc := 15500
  ceiling_exposed := 1
  char_HoC := 32000
  c_p := 1
  E_net := 1
  rho_air := 1
  conv_fract := 0
  k := 1
  rho := 1
  c := 4
  T0_wall := 293
  L := 1
  N := 2
  k_ceil := 1
  rho_ceil := 1
  c_ceil := 4
  T0_ceil := 293
  L_ceil := 1
  N_ceil := 2
  k_floor := 1
  rho_floor := 1
  c_floor := 4
  T0_floor := 293
  L_floor := 1
  N_floor := 2
  hc := 1
  sigma := 0
  ceiling_ignition_time := 1000
  HRR_interp := fun _ => 0
  char_reg_interp := fun _ => 0
  simpsFn := fun _ _ => 0
  smooth := fun l => l

/-- Variant of `cfgW` whose lining ignites at time zero and whose smoothing
filter returns an all-zero array of the input's length, so the smoothed
char depth stays exactly zero when the char-density update runs. -/
def cfg0 : Config :=
  { cfgW with
    ceiling_ignition_time := 0
    smooth := fun l => List.replicate l.length 0 }

/-- Variant of `cfgW` whose ambient temperature (294 K) exceeds the 293 K
constant that `main.py` uses as the gas-temperature floor. -/
def cfg294 : Config :=
  { cfgW with T_inf := 294 }

/-! ## List helpers -/

theorem getD_map_range (f : ℕ → ℝ) {i N : ℕ} (h : i < N) :
    ((List.range N).map f).getD i 0 = f i := by
  have hlen : i < ((List.range N).map f).length := by simpa using h
  rw [List.getD_eq_getElem _ _ hlen]
  simp

theorem getD_replicate_lt {a : ℝ} {j N : ℕ} (h : j < N) :
    (List.replicate N a).getD j 0 = a := by
  have hlen : j < (List.replicate N a).length := by simpa using h
  rw [List.getD_eq_getElem _ _ hlen]
  simp

theorem getD_append_last (l : List ℝ) (x : ℝ) :
    (l ++ [x]).getD l.length 0 = x := by
  rw [List.getD_append_right _ _ _ _ le_rfl]
  simp

/-! ## C4: boundary-conduction stencil -/

/-- C4.  For every call of `update_wall_temp_array` with node count
`N ≥ 2` on an input of length `N`, the result has the input's length `N`;
each interior node `1 ≤ i ≤ N - 2` follows the explicit heat-equation
stencil; the exposed node 0 adds the convective, net-radiative and incident
fluxes scaled by `dt / (rho * c * dx)` plus one-sided conduction to node 1;
and the back node `N - 1` is adiabatic, conducting only from node `N - 2`. -/
theorem C4_boundary_stencil (T : List ℝ) (alpha dt dx h Tg epsilon sigma rho c : ℝ)
    (N : ℕ) (q_inc : ℝ) (hN : 2 ≤ N) (hT : T.length = N) :
    (update_wall_temp_array T alpha dt dx h Tg epsilon sigma rho c N q_inc).length = T.length ∧
    (∀ i, 1 ≤ i → i ≤ N - 2 →
      (update_wall_temp_array T alpha dt dx h Tg epsilon sigma rho c N q_inc).getD i 0 =
        T.getD i 0 + alpha * dt / dx ^ 2 *
          (T.getD (i + 1) 0 - 2 * T.getD i 0 + T.getD (i - 1) 0)) ∧
    (update_wall_temp_array T alpha dt dx h Tg epsilon sigma rho c N q_inc).getD 0 0 =
      T.getD 0 0 +
        ((h * (Tg - T.getD 0 0) + epsilon * sigma * (Tg ^ 4 - T.getD 0 0 ^ 4) + q_inc)
            * dt / (rho * c * dx)
          + alpha * dt / dx ^ 2 * (T.getD 1 0 - T.getD 0 0)) ∧
    (update_wall_temp_array T alpha dt dx h Tg epsilon sigma rho c N q_inc).getD (N - 1) 0 =
      T.getD (N - 1) 0 + alpha * dt / dx ^ 2 * (T.getD (N - 2) 0 - T.getD (N - 1) 0) := by
  refine ⟨by simp [update_wall_temp_array, hT], ?_, ?_, ?_⟩
  · intro i h1 h2
    have hiN : i < N := by omega
    rw [update_wall_temp_array, getD_map_range _ hiN, if_neg (by omega), if_neg (by omega)]
  · rw [update_wall_temp_array, getD_map_range _ (by omega : 0 < N), if_pos rfl]
  · rw [update_wall_temp_array, getD_map_range _ (by omega : N - 1 < N),
      if_neg (by omega : ¬(N - 1 = 0)), if_pos rfl]

/-- Witness for C4 at `N = 3`, `T = [1, 2, 3]`, unit coefficients. -/
theorem C4_boundary_stencil_witness :
    2 ≤ 3 ∧ ([(1 : ℝ), 2, 3].length = 3) ∧
    (update_wall_temp_array [(1 : ℝ), 2, 3] 1 1 1 1 1 1 1 1 1 3 0).getD 1 0 =
      [(1 : ℝ), 2, 3].getD 1 0 + 1 * 1 / 1 ^ 2 *
        ([(1 : ℝ), 2, 3].getD 2 0 - 2 * [(1 : ℝ), 2, 3].getD 1 0 + [(1 : ℝ), 2, 3].getD 0 0) :=
  ⟨by norm_num, by norm_num,
    (C4_boundary_stencil [(1 : ℝ), 2, 3] 1 1 1 1 1 1 1 1 1 3 0 (by norm_num)
      (by norm_num)).2.1 1 (by norm_num) (by norm_num)⟩

/-! ## C5: stability-bound step sizes -/

/-- C5.  `ht_dx_dt_sub` returns `dx = L / (N - 1)` and
`dt = 0.25 * dx ^ 2 / alpha` (the source's `(0.5 * dx ** 2 / alpha) / 2`),
and the orchestrator's single shared step `dt = min(dt1, dt2, dt3)` is at
most each per-boundary stability step. -/
theorem C5_stability_step (L : ℝ) (N : ℕ) (alpha : ℝ) (hN : 2 ≤ N)
    (halpha : 0 < alpha) (p : Config) :
    ht_dx_dt_sub L N alpha =
      (L / ((N : ℝ) - 1), 0.25 * (L / ((N : ℝ) - 1)) ^ 2 / alpha) ∧
    dt_min p ≤ dt_wall p ∧ dt_min p ≤ dt_ceil p ∧ dt_min p ≤ dt_floor p := by
  refine ⟨?_, min_le_left _ _,
    le_trans (min_le_right _ _) (min_le_left _ _),
    le_trans (min_le_right _ _) (min_le_right _ _)⟩
  simp only [ht_dx_dt_sub, Prod.mk.injEq]
  exact ⟨trivial, by ring⟩

/-- Witness for C5 at `L = 1`, `N = 3`, `alpha = 1` and the fixture
configuration. -/
theorem C5_stability_step_witness :
    2 ≤ 3 ∧ (0 : ℝ) < 1 ∧
    ht_dx_dt_sub 1 3 1 = (1 / ((3 : ℝ) - 1), 0.25 * (1 / ((3 : ℝ) - 1)) ^ 2 / 1) ∧
    dt_min cfgW ≤ dt_wall cfgW :=
  ⟨by norm_num, by norm_num, (C5_stability_step 1 3 1 (by norm_num) (by norm_num) cfgW).1,
    (C5_stability_step 1 3 1 (by norm_num) (by norm_num) cfgW).2.1⟩

/-! ## Real-power and rounding helpers -/

theorem rpow_half_sq {x : ℝ} (hx : 0 ≤ x) : (x ^ (0.5 : ℝ)) ^ (2 : ℕ) = x := by
  rw [← Real.rpow_natCast (x ^ (0.5 : ℝ)) 2, ← Real.rpow_mul hx]
  norm_num [Real.rpow_one]

theorem sixteen_rpow_half : (16 : ℝ) ^ (0.5 : ℝ) = 4 := by
  rw [show (16 : ℝ) = 4 ^ (2 : ℕ) by norm_num, ← Real.rpow_natCast 4 2,
    ← Real.rpow_mul (by norm_num : (0 : ℝ) ≤ 4)]
  norm_num [Real.rpow_one]

theorem pyRound_four : pyRound (4 : ℝ) = 4 := by
  unfold pyRound
  have h1 : ⌊(4 : ℝ)⌋ = 4 := by norm_num
  have h2 : Int.fract (4 : ℝ) = 0 := by
    unfold Int.fract
    rw [h1]
    norm_num
  rw [h2, if_pos (by norm_num : (0 : ℝ) < 1 / 2), h1]

/-! ## Evaluation of the generated HRR curve on the rational fixture
geometry `b = d = h = H_o = 1`, `B_o = 8/565`, `HRRPUA = 290`, `alpha = 1`:
the opening is sized so that the ventilation-controlled HRR is exactly
16 kW, making the growth time exactly 4 s. -/

theorem fx_Q_end : Q_end_grow_of 1 1 1 1 (8 / 565) 290 = 16 := by
  unfold Q_end_grow_of total_surf_area_of HRR_flash vent_cont_HRR fuel_cont_HRR
  rw [Real.one_rpow]
  norm_num [min_def]

theorem fx_Q_max : Q_max_of 1 1 1 (8 / 565) 290 = 16 := by
  unfold Q_max_of vent_cont_HRR fuel_cont_HRR
  rw [Real.one_rpow]
  norm_num [min_def]

theorem fx_t_grow : t_grow_of 1 1 1 1 (8 / 565) 290 1 = 4 := by
  unfold t_grow_of Time_to_grow
  rw [fx_Q_end, show (16 : ℝ) / 1 = 16 by norm_num, sixteen_rpow_half]

theorem fx_r : (pyRound (t_grow_of 1 1 1 1 (8 / 565) 290 1)).toNat = 4 := by
  rw [fx_t_grow, pyRound_four]
  rfl

/-! ## C6: phase durations of the generated HRR curve -/

/-- Counterexample for C6.  The steady-duration formula of
`steady_burn_time` pins the decay fraction at `0.7`, but `decay_time`
returns `0.6 * FLE / Q_max`, not `(1 - 0.7) * FLE / Q_max`: already at
`FLE = Q_max = 1` and zero growth energy the two differ (`0.6` versus
`0.3`), so no single decay fraction serves both formulas as the claim
asserts. -/
theorem C6_decay_fraction_counterexample :
    steady_burn_time 0 1 1 = (0.7 * 1 - 0) / 1 ∧
    decay_time 1 1 = 0.6 * 1 / 1 ∧
    (0.6 * 1 / 1 : ℝ) ≠ (1 - 0.7) * 1 / 1 := by
  refine ⟨?_, ?_, ?_⟩ <;> norm_num [steady_burn_time, decay_time]

/-- C6 (amended).  In the generated HRR curve the growth duration satisfies
`alpha * t_grow ^ 2 = Q_end_grow`, the growth-phase energy equals
`(1/3) * alpha * t_grow ^ 3`, the steady duration equals
`(0.7 * FLE_total - growth_energy) / Q_max`, and the decay duration equals
`0.6 * FLE_total / Q_max` — that is, `2 * (1 - decay_fraction) * FLE_total
/ Q_max` for the decay fraction `0.7` of the steady formula, not
`(1 - decay_fraction) * FLE_total / Q_max` — with
`FLE_total = FLED * floor_area`. -/
theorem C6_hrr_curve_phases (b d h H_o B_o HRRPUA alpha FLED : ℝ)
    (halpha : 0 < alpha) (hb : 0 ≤ b) (hd : 0 ≤ d) (hh : 0 ≤ h)
    (hHo : 0 ≤ H_o) (hBo : 0 ≤ B_o) (hPUA : 0 ≤ HRRPUA)
    (hopen : H_o * B_o ≤ 2 * (b + d) * h) :
    alpha * t_grow_of b d h H_o B_o HRRPUA alpha ^ 2 =
      Q_end_grow_of b d h H_o B_o HRRPUA ∧
    FLE_grow (t_grow_of b d h H_o B_o HRRPUA alpha) alpha =
      1 / 3 * alpha * t_grow_of b d h H_o B_o HRRPUA alpha ^ 3 ∧
    t_steady_of b d h H_o B_o HRRPUA alpha FLED =
      (0.7 * FLE_of b d FLED -
        FLE_grow (t_grow_of b d h H_o B_o HRRPUA alpha) alpha) /
        Q_max_of b d H_o B_o HRRPUA ∧
    t_decay_of b d H_o B_o HRRPUA FLED =
      0.6 * FLE_of b d FLED / Q_max_of b d H_o B_o HRRPUA ∧
    FLE_of b d FLED = FLED * (b * d) := by
  have hQ : 0 ≤ Q_end_grow_of b d h H_o B_o HRRPUA := by
    have hbd : 0 ≤ b * d := mul_nonneg hb hd
    have hAv : 0 ≤ H_o * B_o := mul_nonneg hHo hBo
    have hrt : 0 ≤ H_o ^ (0.5 : ℝ) := Real.rpow_nonneg hHo _
    have hAt : 0 ≤ total_surf_area_of b d h H_o B_o := by
      unfold total_surf_area_of
      nlinarith
    refine le_min ?_ (le_min ?_ ?_)
    · unfold HRR_flash
      have := mul_nonneg (mul_nonneg (by norm_num : (0 : ℝ) ≤ 378) hAv) hrt
      nlinarith
    · unfold vent_cont_HRR
      have := mul_nonneg (mul_nonneg (by norm_num : (0 : ℝ) ≤ 1130) hAv) hrt
      linarith
    · exact mul_nonneg hbd hPUA
  refine ⟨?_, by unfold FLE_grow; ring, rfl, rfl, rfl⟩
  unfold t_grow_of Time_to_grow
  have hx : 0 ≤ Q_end_grow_of b d h H_o B_o HRRPUA / alpha :=
    div_nonneg hQ halpha.le
  rw [rpow_half_sq hx]
  field_simp

/-- Witness for C6 (amended) on the all-ones configuration. -/
theorem C6_hrr_curve_phases_witness :
    (0 : ℝ) < 1 ∧ ((1 : ℝ) * 1 ≤ 2 * (1 + 1) * 1) ∧
    (1 : ℝ) * t_grow_of 1 1 1 1 1 1 1 ^ 2 = Q_end_grow_of 1 1 1 1 1 1 ∧
    t_decay_of 1 1 1 1 1 1 = 0.6 * FLE_of 1 1 1 / Q_max_of 1 1 1 1 1 :=
  ⟨by norm_num, by norm_num,
    (C6_hrr_curve_phases 1 1 1 1 1 1 1 1 (by norm_num) (by norm_num) (by norm_num)
      (by norm_num) (by norm_num) (by norm_num) (by norm_num) (by norm_num)).1,
    (C6_hrr_curve_phases 1 1 1 1 1 1 1 1 (by norm_num) (by norm_num) (by norm_num)
      (by norm_num) (by norm_num) (by norm_num) (by norm_num) (by norm_num)).2.2.2.1⟩

/-! ## C9: negative steady duration is returned unguarded -/

theorem fx_t_steady30 : t_steady_of 1 1 1 1 (8 / 565) 290 1 30 = -(1 / 48) := by
  unfold t_steady_of steady_burn_time FLE_grow FLE_of
  rw [fx_t_grow, fx_Q_max]
  norm_num

theorem fx_t_decay30 : t_decay_of 1 1 1 (8 / 565) 290 30 = 9 / 8 := by
  unfold t_decay_of decay_time FLE_of
  rw [fx_Q_max]
  norm_num

theorem fx_curve30 : time_vs_HRR 1 1 1 1 (8 / 565) 290 1 30 =
    ([0, 1, 2, 3, 5, 191 / 48, 245 / 48, 14400], [0, 1, 4, 9, 16, 16, 0, 0]) := by
  simp only [time_vs_HRR]
  rw [fx_t_grow, fx_Q_max, fx_t_steady30, fx_t_decay30, pyRound_four]
  norm_num [show Int.toNat 4 = 4 from rfl, List.range_succ, t_squared_fire]

/-- C9.  At fire load energy density 30 (small relative to the fixture's
growth-phase energy `64/3`) the computed steady duration is negative, yet
`time_vs_HRR` still returns the full eight-point control sequence, whose
time values are not strictly increasing (the plateau end `191/48` precedes
the plateau start `5`); no check or exception guards the condition. -/
theorem C9_negative_steady_unguarded :
    t_steady_of 1 1 1 1 (8 / 565) 290 1 30 < 0 ∧
    (time_vs_HRR 1 1 1 1 (8 / 565) 290 1 30).1.length = 8 ∧
    (time_vs_HRR 1 1 1 1 (8 / 565) 290 1 30).2.length = 8 ∧
    (time_vs_HRR 1 1 1 1 (8 / 565) 290 1 30).1.getD 5 0 <
      (time_vs_HRR 1 1 1 1 (8 / 565) 290 1 30).1.getD 4 0 := by
  rw [fx_t_steady30, fx_curve30]
  norm_num [List.getD]

/-! ## Structure of one loop iteration -/

theorem mainStep_pre (p : Config) (i : ℕ) (s : LoopState)
    (h : stepTime p i < p.ceiling_ignition_time) :
    mainStep p i s = some (advance p i s 0 s.char_rho) := by
  rw [mainStep, if_pos h]

theorem mainStep_shape {p : Config} {i : ℕ} {s s' : LoopState}
    (h : mainStep p i s = some s') : ∃ cr crho, s' = advance p i s cr crho := by
  rw [mainStep] at h
  split at h
  · exact ⟨0, s.char_rho, (Option.some.inj h).symm⟩
  · rcases hcd : char_density ((newDepth p i s).getD i 0) with - | cd
    · rw [hcd] at h
      cases h
    · rw [hcd] at h
      exact ⟨charring_rate_at p i s, cd, (Option.some.inj h).symm⟩

theorem HRR_VC_lim_nonneg (p : Config) (hHo : 0 ≤ p.H_o) (hBo : 0 ≤ p.B_o) :
    0 ≤ HRR_VC_lim p := by
  have h1 : 0 ≤ p.H_o * p.B_o := mul_nonneg hHo hBo
  have h2 : 0 ≤ p.H_o ^ (0.5 : ℝ) := Real.rpow_nonneg hHo _
  have h3 : 0 ≤ 1130 * (p.H_o * p.B_o) * p.H_o ^ (0.5 : ℝ) :=
    mul_nonneg (mul_nonneg (by norm_num) h1) h2
  unfold HRR_VC_lim vent_cont_HRR opening_area
  exact mul_nonneg h3 (by norm_num)

/-- Invariant of the time loop: history lengths grow by one per step, the
initial gas entry is preserved, every post-initial gas entry respects the
293 K floor, and every post-initial total/external HRR entry is clamped and
satisfies the external-excess equation relative to the recorded wood HRR. -/
theorem runLoop_inv (p : Config) :
    ∀ n s, runLoop p n = some s →
      s.time_hist.length = n + 1 ∧
      s.gas_hist.length = n + 1 ∧
      s.wood_hist.length = n + 1 ∧
      s.total_hist.length = n + 1 ∧
      s.ext_hist.length = n + 1 ∧
      s.gas_hist.getD 0 0 = p.T_f0 ∧
      (∀ i, 1 ≤ i → i ≤ n → 293 ≤ s.gas_hist.getD i 0) ∧
      (∀ i, 1 ≤ i → i ≤ n →
        0 ≤ s.total_hist.getD i 0 ∧
        s.total_hist.getD i 0 ≤ max (HRR_VC_lim p) 0 ∧
        s.ext_hist.getD i 0 =
          max 0 (s.wood_hist.getD i 0 + HRR_content_at p i - HRR_VC_lim p)) := by
  intro n
  induction n with
  | zero =>
    intro s h
    simp only [runLoop, Option.some.injEq] at h
    subst h
    refine ⟨rfl, rfl, rfl, rfl, rfl, rfl, ?_, ?_⟩ <;> intro i h1 h2 <;> omega
  | succ n ih =>
    intro s' h
    simp only [runLoop] at h
    obtain ⟨s, hs, hstep⟩ := Option.bind_eq_some.mp h
    obtain ⟨cr, crho, rfl⟩ := mainStep_shape hstep
    obtain ⟨l1, l2, l3, l4, l5, h0, hC, hD⟩ := ih s hs
    have e1 : (advance p (n + 1) s cr crho).time_hist =
        s.time_hist ++ [stepTime p (n + 1)] := rfl
    have e2 : (advance p (n + 1) s cr crho).gas_hist =
        s.gas_hist ++ [newTf p (n + 1) s] := rfl
    have e3 : (advance p (n + 1) s cr crho).wood_hist =
        s.wood_hist ++ [HRR_wood_at p (n + 1) s] := rfl
    have e4 : (advance p (n + 1) s cr crho).total_hist =
        s.total_hist ++ [HRR_total_at p (n + 1) s] := rfl
    have e5 : (advance p (n + 1) s cr crho).ext_hist =
        s.ext_hist ++ [HRR_ext_at p (n + 1) s] := rfl
    refine ⟨?_, ?_, ?_, ?_, ?_, ?_, ?_, ?_⟩
    · rw [e1]; simp [l1]
    · rw [e2]; simp [l2]
    · rw [e3]; simp [l3]
    · rw [e4]; simp [l4]
    · rw [e5]; simp [l5]
    · rw [e2, List.getD_append _ _ _ _ (by rw [l2]; omega)]
      exact h0
    · intro i h1 h2
      rcases Nat.lt_or_ge i (n + 1) with hlt | hge
      · rw [e2, List.getD_append _ _ _ _ (by omega)]
        exact hC i h1 (by omega)
      · have hi : i = n + 1 := by omega
        subst hi
        have hlast := getD_append_last s.gas_hist (newTf p (n + 1) s)
        rw [l2] at hlast
        rw [e2, hlast]
        exact le_max_left _ _
    · intro i h1 h2
      rcases Nat.lt_or_ge i (n + 1) with hlt | hge
      · rw [e4, e5, e3, List.getD_append _ _ _ _ (by omega),
          List.getD_append _ _ _ _ (by omega), List.getD_append _ _ _ _ (by omega)]
        exact hD i h1 (by omega)
      · have hi : i = n + 1 := by omega
        subst hi
        have hl4 := getD_append_last s.total_hist (HRR_total_at p (n + 1) s)
        have hl5 := getD_append_last s.ext_hist (HRR_ext_at p (n + 1) s)
        have hl3 := getD_append_last s.wood_hist (HRR_wood_at p (n + 1) s)
        rw [l4] at hl4
        rw [l5] at hl5
        rw [l3] at hl3
        rw [e4, e5, e3, hl4, hl5, hl3]
        refine ⟨le_max_right _ _, ?_, rfl⟩
        exact max_le (le_trans (min_le_right _ _) (le_max_left _ _)) (le_max_right _ _)

/-! ## Fixture evaluation lemmas for the loop model -/

theorem fx_dt_min_cfgW : dt_min cfgW = 1 := by
  simp only [dt_min, dt_wall, dt_ceil, dt_floor, ht_dx_dt_sub, alpha_wall,
    alpha_ceil, alpha_floor, alpha_calc, cfgW]
  norm_num

theorem fx_dt_min_cfg0 : dt_min cfg0 = 1 := by
  simp only [dt_min, dt_wall, dt_ceil, dt_floor, ht_dx_dt_sub, alpha_wall,
    alpha_ceil, alpha_floor, alpha_calc, cfg0, cfgW]
  norm_num

theorem fx_dt_min_cfg294 : dt_min cfg294 = 1 := by
  simp only [dt_min, dt_wall, dt_ceil, dt_floor, ht_dx_dt_sub, alpha_wall,
    alpha_ceil, alpha_floor, alpha_calc, cfg294, cfgW]
  norm_num

theorem fx_step1_cfgW : stepTime cfgW 1 < cfgW.ceiling_ignition_time := by
  unfold stepTime
  rw [fx_dt_min_cfgW]
  norm_num [cfgW]

theorem fx_run1_cfgW :
    runLoop cfgW 1 = some (advance cfgW 1 (initState cfgW) 0 (initState cfgW).char_rho) := by
  simp [runLoop, mainStep_pre _ _ _ fx_step1_cfgW]

/-! ## C1: ventilation cap and external excess -/

/-- C1.  Along every successful run, every recorded total HRR of a loop
step `1 ≤ i ≤ n` is between `0` and the ventilation-controlled cap
`HRR_VC_lim` (computed once before the loop), and the recorded external HRR
equals `max(0, (HRR_wood[i] + HRR_content[i]) - HRR_VC_lim)` exactly, where
`HRR_wood[i]` is the recorded wood HRR and `HRR_content[i]` the content-HRR
lookup at the step time. -/
theorem C1_ventilation_cap (p : Config) (hHo : 0 ≤ p.H_o) (hBo : 0 ≤ p.B_o)
    (n : ℕ) (s : LoopState) (hrun : runLoop p n = some s)
    (i : ℕ) (h1 : 1 ≤ i) (h2 : i ≤ n) :
    0 ≤ s.total_hist.getD i 0 ∧
    s.total_hist.getD i 0 ≤ HRR_VC_lim p ∧
    s.ext_hist.getD i 0 =
      max 0 (s.wood_hist.getD i 0 + HRR_content_at p i - HRR_VC_lim p) := by
  obtain ⟨-, -, -, -, -, -, -, hD⟩ := runLoop_inv p n s hrun
  obtain ⟨ha, hb2, hc2⟩ := hD i h1 h2
  refine ⟨ha, ?_, hc2⟩
  rw [max_eq_left (HRR_VC_lim_nonneg p hHo hBo)] at hb2
  exact hb2

/-- Witness for C1 after one loop step of the fixture configuration. -/
theorem C1_ventilation_cap_witness :
    (0 : ℝ) ≤ cfgW.H_o ∧ (0 : ℝ) ≤ cfgW.B_o ∧
    0 ≤ (advance cfgW 1 (initState cfgW) 0 (initState cfgW).char_rho).total_hist.getD 1 0 ∧
    (advance cfgW 1 (initState cfgW) 0 (initState cfgW).char_rho).total_hist.getD 1 0 ≤
      HRR_VC_lim cfgW ∧
    (advance cfgW 1 (initState cfgW) 0 (initState cfgW).char_rho).ext_hist.getD 1 0 =
      max 0 ((advance cfgW 1 (initState cfgW) 0 (initState cfgW).char_rho).wood_hist.getD 1 0 +
        HRR_content_at cfgW 1 - HRR_VC_lim cfgW) := by
  have key := C1_ventilation_cap cfgW (by norm_num [cfgW]) (by norm_num [cfgW]) 1 _
    fx_run1_cfgW 1 le_rfl le_rfl
  exact ⟨by norm_num [cfgW], by norm_num [cfgW], key.1, key.2.1, key.2.2⟩

/-! ## C2: one-step-lagged structural HRR -/

/-- C2.  For a run reaching state `s` after `n` steps and a successful step
`n + 1` producing `s'`, the recorded structural HRR of step `n + 1` is zero
when the step time does not exceed the lining-ignition time, and otherwise
equals the wood-pyrolysis term driven by `s.MLR` plus the char-regression
term driven by `s.char_rho` — exactly the values written at the end of step
`n` and carried unchanged into step `n + 1`, both zero initially. -/
theorem C2_wood_hrr_lag (p : Config) (n : ℕ) (s s' : LoopState)
    (hrun : runLoop p n = some s) (hstep : mainStep p (n + 1) s = some s') :
    runLoop p (n + 1) = some s' ∧
    (initState p).MLR = 0 ∧ (initState p).char_rho = 0 ∧
    (p.ceiling_ignition_time < stepTime p (n + 1) →
      s'.wood_hist.getD (n + 1) 0 =
        s.MLR * p.wood_Hoc * ceiling_area p * p.ceiling_exposed * 1000 +
          char_reg_HRR s.char_rho
            (p.char_reg_interp (stepTime p (n + 1)) / (60 * 1000))
            (p.char_HoC * 1000) * ceiling_area p * p.ceiling_exposed) ∧
    (¬ p.ceiling_ignition_time < stepTime p (n + 1) →
      s'.wood_hist.getD (n + 1) 0 = 0) := by
  obtain ⟨cr, crho, rfl⟩ := mainStep_shape hstep
  obtain ⟨-, -, hw, -, -, -, -, -⟩ := runLoop_inv p n s hrun
  have hgoal : (advance p (n + 1) s cr crho).wood_hist.getD (n + 1) 0 =
      HRR_wood_at p (n + 1) s := by
    have hlast := getD_append_last s.wood_hist (HRR_wood_at p (n + 1) s)
    rw [hw] at hlast
    exact hlast
  refine ⟨?_, rfl, rfl, ?_, ?_⟩
  · simp only [runLoop, hrun, Option.bind_some]
    exact hstep
  · intro hig
    rw [hgoal, HRR_wood_at, if_pos hig]
  · intro hig
    rw [hgoal, HRR_wood_at, if_neg hig]

/-- Witness for C2 at the first step of the fixture configuration, which is
before lining ignition, so the recorded structural HRR is zero. -/
theorem C2_wood_hrr_lag_witness :
    runLoop cfgW 0 = some (initState cfgW) ∧
    mainStep cfgW 1 (initState cfgW) =
      some (advance cfgW 1 (initState cfgW) 0 (initState cfgW).char_rho) ∧
    ¬ cfgW.ceiling_ignition_time < stepTime cfgW 1 ∧
    (advance cfgW 1 (initState cfgW) 0 (initState cfgW).char_rho).wood_hist.getD 1 0 = 0 := by
  have hstep := mainStep_pre cfgW 1 (initState cfgW) fx_step1_cfgW
  have hnot : ¬ cfgW.ceiling_ignition_time < stepTime cfgW 1 := lt_asymm fx_step1_cfgW
  exact ⟨rfl, hstep, hnot,
    (C2_wood_hrr_lag cfgW 0 (initState cfgW) _ rfl hstep).2.2.2.2 hnot⟩

/-! ## C3: gas-temperature floor -/

/-- Counterexample for C3.  With ambient temperature 294 K and initial gas
temperature 293 K — a configuration the reference code accepts — the
recorded gas-temperature history of a one-step run already holds an entry
(the initial one) strictly below ambient, because the code's floor is the
hard-coded constant 293 K, not the configured ambient. -/
theorem C3_ambient_counterexample :
    (runLoop cfg294 1).isSome = true ∧
    ((runLoop cfg294 1).getD (initState cfg294)).gas_hist.getD 0 0 < cfg294.T_inf := by
  have hlt : stepTime cfg294 1 < cfg294.ceiling_ignition_time := by
    unfold stepTime
    rw [fx_dt_min_cfg294]
    norm_num [cfg294, cfgW]
  have hrun : runLoop cfg294 1 =
      some (advance cfg294 1 (initState cfg294) 0 (initState cfg294).char_rho) := by
    simp [runLoop, mainStep_pre _ _ _ hlt]
  rw [hrun]
  refine ⟨rfl, ?_⟩
  show ((initState cfg294).gas_hist ++ [newTf cfg294 1 (initState cfg294)]).getD 0 0 <
    cfg294.T_inf
  rw [List.getD_append _ _ _ _ (by simp [initState])]
  norm_num [initState, cfg294, cfgW]

/-- C3 (amended).  Along every successful run, each step's new gas
temperature is `max(293, previous + increment)` — the floor is the
hard-coded constant 293 K, not the configured ambient — so every recorded
gas temperature from step 1 on is at least 293 K, and the recorded history
is bounded below by the ambient temperature whenever the ambient is at most
293 K and the initial gas temperature is at least ambient. -/
theorem C3_gas_floor (p : Config) (n : ℕ) (s : LoopState)
    (hrun : runLoop p n = some s) :
    (∀ i, 1 ≤ i → i ≤ n → 293 ≤ s.gas_hist.getD i 0) ∧
    (p.T_inf ≤ 293 → p.T_inf ≤ p.T_f0 →
      ∀ i, i ≤ n → p.T_inf ≤ s.gas_hist.getD i 0) ∧
    (∀ i s', mainStep p i s = some s' →
      s'.T_f = max 293 (s.T_f + dT_gas_at p i s) ∧
      s'.gas_hist = s.gas_hist ++ [max 293 (s.T_f + dT_gas_at p i s)]) := by
  obtain ⟨-, -, -, -, -, h0, hC, -⟩ := runLoop_inv p n s hrun
  refine ⟨hC, ?_, ?_⟩
  · intro ha hb i hi
    rcases Nat.eq_zero_or_pos i with rfl | hpos
    · rw [h0]
      exact hb
    · exact le_trans ha (hC i hpos hi)
  · intro i s' hstep
    obtain ⟨cr, crho, rfl⟩ := mainStep_shape hstep
    exact ⟨rfl, rfl⟩

/-- Witness for C3 (amended) after one loop step of the fixture
configuration, whose ambient is exactly 293 K. -/
theorem C3_gas_floor_witness :
    runLoop cfgW 1 = some (advance cfgW 1 (initState cfgW) 0 (initState cfgW).char_rho) ∧
    cfgW.T_inf ≤ 293 ∧ cfgW.T_inf ≤ cfgW.T_f0 ∧
    293 ≤ (advance cfgW 1 (initState cfgW) 0 (initState cfgW).char_rho).gas_hist.getD 1 0 ∧
    cfgW.T_inf ≤ (advance cfgW 1 (initState cfgW) 0 (initState cfgW).char_rho).gas_hist.getD 0 0 := by
  have key := C3_gas_floor cfgW 1 _ fx_run1_cfgW
  refine ⟨fx_run1_cfgW, by norm_num [cfgW], by norm_num [cfgW], ?_, ?_⟩
  · exact key.1 1 le_rfl le_rfl
  · exact key.2.1 (by norm_num [cfgW]) (by norm_num [cfgW]) 0 (by omega)

/-! ## C10: char-density division by zero -/

/-- C10.  `char_density` is undefined (raises `ZeroDivisionError`) at char
thickness 0, is defined and positive at every positive thickness, and in
the orchestrator loop a step whose time is not below the lining-ignition
time while the smoothed char depth at index `i` is still exactly 0 aborts
in the char-density update instead of producing a successor state. -/
theorem C10_char_density_zero (t : ℝ) (ht : 0 < t) (p : Config) (i : ℕ)
    (s : LoopState)
    (htime : ¬ stepTime p i < p.ceiling_ignition_time)
    (hdepth : (newDepth p i s).getD i 0 = 0) :
    char_density 0 = none ∧
    char_density t = some (230 / t ^ (0.5 : ℝ)) ∧
    0 < 230 / t ^ (0.5 : ℝ) ∧
    mainStep p i s = none := by
  have hz : (0 : ℝ) ^ (0.5 : ℝ) = 0 := Real.zero_rpow (by norm_num)
  have hpos : 0 < t ^ (0.5 : ℝ) := Real.rpow_pos_of_pos ht _
  refine ⟨?_, ?_, div_pos (by norm_num) hpos, ?_⟩
  · rw [char_density, if_pos hz]
  · rw [char_density, if_neg hpos.ne']
  · rw [mainStep, if_neg htime, hdepth, char_density, if_pos hz]

/-- Witness for C10: thickness 4 on the function side, and the
ignition-at-zero fixture whose smoothing filter keeps the char depth at
exactly zero, so the first loop step aborts. -/
theorem C10_char_density_zero_witness :
    (0 : ℝ) < 4 ∧ ¬ stepTime cfg0 1 < cfg0.ceiling_ignition_time ∧
    (newDepth cfg0 1 (initState cfg0)).getD 1 0 = 0 ∧
    char_density 0 = none ∧
    char_density 4 = some (230 / (4 : ℝ) ^ (0.5 : ℝ)) ∧
    mainStep cfg0 1 (initState cfg0) = none := by
  have h4 : (0 : ℝ) < 4 := by norm_num
  have htime : ¬ stepTime cfg0 1 < cfg0.ceiling_ignition_time := by
    unfold stepTime
    rw [fx_dt_min_cfg0]
    norm_num [cfg0, cfgW]
  have hdepth : (newDepth cfg0 1 (initState cfg0)).getD 1 0 = 0 := by
    simp only [newDepth, cfg0]
    rw [getD_replicate_lt]
    simp [initState]
  have key := C10_char_density_zero 4 h4 cfg0 1 (initState cfg0) htime hdepth
  exact ⟨h4, htime, hdepth, key.1, key.2.1, key.2.2.2⟩

/-! ## Trapezoidal-rule lemmas -/

theorem trapzP_single (a : ℝ × ℝ) : trapzP [a] = 0 := rfl

theorem trapzP_cons_cons (a b : ℝ × ℝ) (l : List (ℝ × ℝ)) :
    trapzP (a :: b :: l) = (b.1 - a.1) * (a.2 + b.2) / 2 + trapzP (b :: l) := rfl

theorem trapzP_append (a : ℝ × ℝ) (ys : List (ℝ × ℝ)) :
    ∀ xs : List (ℝ × ℝ),
      trapzP (xs ++ a :: ys) = trapzP (xs ++ [a]) + trapzP (a :: ys) := by
  intro xs
  induction xs with
  | nil => simp [trapzP]
  | cons x xs ih =>
    cases xs with
    | nil =>
      rw [show ([x] ++ a :: ys) = x :: a :: ys from rfl, trapzP_cons_cons,
        show ([x] ++ [a]) = [x, a] from rfl, trapzP_cons_cons, trapzP_single]
      ring
    | cons y t =>
      calc trapzP ((x :: y :: t) ++ a :: ys)
          = (y.1 - x.1) * (x.2 + y.2) / 2 + trapzP ((y :: t) ++ a :: ys) := rfl
        _ = (y.1 - x.1) * (x.2 + y.2) / 2 +
              (trapzP ((y :: t) ++ [a]) + trapzP (a :: ys)) := by rw [ih]
        _ = trapzP ((x :: y :: t) ++ [a]) + trapzP (a :: ys) := by
              rw [show trapzP ((x :: y :: t) ++ [a]) =
                (y.1 - x.1) * (x.2 + y.2) / 2 + trapzP ((y :: t) ++ [a]) from rfl]
              ring

/-- Trapezoidal sum of the per-second growth samples: `m + 1` samples of
`alpha * t ^ 2` at `t = 0 .. m` integrate to
`alpha * (m ^ 3 / 3 + m / 6)` under the trapezoidal rule. -/
theorem trapzP_growth (alpha : ℝ) :
    ∀ m : ℕ,
      trapzP ((List.range (m + 1)).map
        (fun k : ℕ => ((k : ℝ), t_squared_fire alpha (k : ℝ)))) =
      alpha * ((m : ℝ) ^ 3 / 3 + (m : ℝ) / 6) := by
  intro m
  induction m with
  | zero => simp [trapzP, List.range_succ]
  | succ m ih =>
    have hsplit : (List.range (m + 1 + 1)).map
        (fun k : ℕ => ((k : ℝ), t_squared_fire alpha (k : ℝ))) =
        (List.range m).map (fun k : ℕ => ((k : ℝ), t_squared_fire alpha (k : ℝ))) ++
          (((m : ℝ), t_squared_fire alpha (m : ℝ)) ::
            [(((m + 1 : ℕ) : ℝ), t_squared_fire alpha ((m + 1 : ℕ) : ℝ))]) := by
      rw [List.range_succ, List.map_append, List.range_succ, List.map_append,
        List.append_assoc]
      rfl
    have hsplit2 : (List.range (m + 1)).map
        (fun k : ℕ => ((k : ℝ), t_squared_fire alpha (k : ℝ))) =
        (List.range m).map (fun k : ℕ => ((k : ℝ), t_squared_fire alpha (k : ℝ))) ++
          [((m : ℝ), t_squared_fire alpha (m : ℝ))] := by
      rw [List.range_succ, List.map_append]
      rfl
    rw [hsplit, trapzP_append, ← hsplit2, ih, trapzP_cons_cons, trapzP_single]
    simp only [t_squared_fire]
    push_cast
    ring

/-! ## C8: trapezoidal round-trip of the generated curve -/

theorem fx_t_steady8 : t_steady_of 1 1 1 1 (8 / 565) 290 1 (640 / 21) = 0 := by
  unfold t_steady_of steady_burn_time FLE_grow FLE_of
  rw [fx_t_grow, fx_Q_max]
  norm_num

theorem fx_t_decay8 : t_decay_of 1 1 1 (8 / 565) 290 (640 / 21) = 8 / 7 := by
  unfold t_decay_of decay_time FLE_of
  rw [fx_Q_max]
  norm_num

theorem fx_curve8 : time_vs_HRR 1 1 1 1 (8 / 565) 290 1 (640 / 21) =
    ([0, 1, 2, 3, 5, 4, 36 / 7, 14400], [0, 1, 4, 9, 16, 16, 0, 0]) := by
  simp only [time_vs_HRR]
  rw [fx_t_grow, fx_Q_max, fx_t_steady8, fx_t_decay8, pyRound_four]
  norm_num [show Int.toNat 4 = 4 from rfl, List.range_succ, t_squared_fire]

/-- Counterexample for C8.  On the rational fixture geometry with
`FLED = 640/21` the computed steady duration is exactly `0` (nonnegative,
as the claim's parenthetical requires), the fire-load round trip misses by
`17/6` against a 5-percent allowance of `32/21`: the trapezoidal integral
of the generated control points is `387/14` while `FLED * floor_area =
640/21`, an 8.9-percent deficit. -/
theorem C8_five_percent_counterexample :
    0 ≤ t_steady_of 1 1 1 1 (8 / 565) 290 1 (640 / 21) ∧
    ¬ |trapz (time_vs_HRR 1 1 1 1 (8 / 565) 290 1 (640 / 21)).1
          (time_vs_HRR 1 1 1 1 (8 / 565) 290 1 (640 / 21)).2 -
        FLE_of 1 1 (640 / 21)| ≤ 0.05 * FLE_of 1 1 (640 / 21) := by
  refine ⟨by rw [fx_t_steady8], ?_⟩
  rw [fx_curve8]
  have hval : trapz [0, 1, 2, 3, 5, 4, 36 / 7, 14400] [0, 1, 4, 9, 16, 16, 0, 0] =
      387 / 14 := by
    simp only [trapz, List.zip_cons_cons, List.zip_nil_right, trapzP_cons_cons,
      trapzP_single]
    norm_num
  rw [hval]
  unfold FLE_of
  rw [abs_of_nonpos (by norm_num)]
  norm_num

/-- C8 (amended).  For every configuration whose growth phase has
`r = m + 1 ≥ 1` per-second samples and whose `Q_max` is nonzero, the
trapezoidal integral of the generated control points equals
`FLED * floor_area` plus the explicit discretization error `trapzErr`
(growth-sampling surplus, bridge trapezoid and plateau-start overlap); the
round trip is within 5 percent exactly when that error is within 5 percent
of `FLED * floor_area`, which bounded fixtures satisfy but small fire loads
(as in the counterexample) do not. -/
theorem C8_trapz_exact (b d h H_o B_o HRRPUA alpha FLED : ℝ) (m : ℕ)
    (hr : (pyRound (t_grow_of b d h H_o B_o HRRPUA alpha)).toNat = m + 1)
    (hQ : Q_max_of b d H_o B_o HRRPUA ≠ 0) :
    trapz (time_vs_HRR b d h H_o B_o HRRPUA alpha FLED).1
        (time_vs_HRR b d h H_o B_o HRRPUA alpha FLED).2 -
      FLE_of b d FLED = trapzErr b d h H_o B_o HRRPUA alpha (m : ℝ) ∧
    (|trapzErr b d h H_o B_o HRRPUA alpha (m : ℝ)| ≤ 0.05 * FLE_of b d FLED →
      |trapz (time_vs_HRR b d h H_o B_o HRRPUA alpha FLED).1
          (time_vs_HRR b d h H_o B_o HRRPUA alpha FLED).2 -
        FLE_of b d FLED| ≤ 0.05 * FLE_of b d FLED) := by
  have hts : t_steady_of b d h H_o B_o HRRPUA alpha FLED *
      Q_max_of b d H_o B_o HRRPUA =
      0.7 * FLE_of b d FLED -
        1 / 3 * alpha * t_grow_of b d h H_o B_o HRRPUA alpha ^ 3 := by
    unfold t_steady_of steady_burn_time FLE_grow
    exact div_mul_cancel₀ _ hQ
  have htd : t_decay_of b d H_o B_o HRRPUA FLED * Q_max_of b d H_o B_o HRRPUA =
      0.6 * FLE_of b d FLED := by
    unfold t_decay_of decay_time
    exact div_mul_cancel₀ _ hQ
  have hmain : trapz (time_vs_HRR b d h H_o B_o HRRPUA alpha FLED).1
      (time_vs_HRR b d h H_o B_o HRRPUA alpha FLED).2 -
      FLE_of b d FLED = trapzErr b d h H_o B_o HRRPUA alpha (m : ℝ) := by
    simp only [time_vs_HRR, trapz]
    rw [hr, List.zip_append (by simp), List.zip_map']
    simp only [List.zip_cons_cons, List.zip_nil_right]
    rw [trapzP_append]
    have hsplit : (List.range (m + 1)).map
        (fun k : ℕ => ((k : ℝ), t_squared_fire alpha (k : ℝ))) ++
          [(t_grow_of b d h H_o B_o HRRPUA alpha + 1, Q_max_of b d H_o B_o HRRPUA)] =
        (List.range m).map (fun k : ℕ => ((k : ℝ), t_squared_fire alpha (k : ℝ))) ++
          (((m : ℝ), t_squared_fire alpha (m : ℝ)) ::
            [(t_grow_of b d h H_o B_o HRRPUA alpha + 1, Q_max_of b d H_o B_o HRRPUA)]) := by
      rw [List.range_succ, List.map_append, List.append_assoc]
      rfl
    have hsplit2 : (List.range (m + 1)).map
        (fun k : ℕ => ((k : ℝ), t_squared_fire alpha (k : ℝ))) =
        (List.range m).map (fun k : ℕ => ((k : ℝ), t_squared_fire alpha (k : ℝ))) ++
          [((m : ℝ), t_squared_fire alpha (m : ℝ))] := by
      rw [List.range_succ, List.map_append]
      rfl
    rw [hsplit, trapzP_append, ← hsplit2,
      trapzP_growth, trapzP_cons_cons, trapzP_single, trapzP_cons_cons,
      trapzP_cons_cons, trapzP_cons_cons, trapzP_single]
    dsimp only
    simp only [trapzErr, t_squared_fire]
    linear_combination hts + htd / 2
  exact ⟨hmain, fun hb => by rw [hmain]; exact hb⟩

/-- Witness for C8 (amended) on the fixture geometry with `FLED = 640/21`:
four growth samples (`m = 3`) and `Q_max = 16`. -/
theorem C8_trapz_exact_witness :
    (pyRound (t_grow_of 1 1 1 1 (8 / 565) 290 1)).toNat = 3 + 1 ∧
    Q_max_of 1 1 1 (8 / 565) 290 ≠ 0 ∧
    trapz (time_vs_HRR 1 1 1 1 (8 / 565) 290 1 (640 / 21)).1
        (time_vs_HRR 1 1 1 1 (8 / 565) 290 1 (640 / 21)).2 -
      FLE_of 1 1 (640 / 21) = trapzErr 1 1 1 1 (8 / 565) 290 1 ((3 : ℕ) : ℝ) := by
  have h1 : (pyRound (t_grow_of 1 1 1 1 (8 / 565) 290 1)).toNat = 3 + 1 := by
    rw [fx_r]
  have h2 : Q_max_of 1 1 1 (8 / 565) 290 ≠ 0 := by
    rw [fx_Q_max]
    norm_num
  exact ⟨h1, h2, (C8_trapz_exact 1 1 1 1 (8 / 565) 290 1 (640 / 21) 3 h1 h2).1⟩

/-! ## C7: uniform field at gas temperature is a fixed point -/

/-- C7.  With zero incident flux and an input field uniformly at the gas
temperature, one call of `update_wall_temp_array` returns the input field,
and every number of repeated applications leaves it unchanged. -/
theorem C7_uniform_fixed_point (N : ℕ) (hN : 2 ≤ N)
    (Tg alpha dt dx h epsilon sigma rho c : ℝ)
    (hdt : 0 < dt) (hdx : 0 < dx) (hrho : 0 < rho) (hcc : 0 < c) (hh : 0 < h)
    (heps : 0 < epsilon) (hsig : 0 < sigma) :
    update_wall_temp_array (List.replicate N Tg) alpha dt dx h Tg epsilon sigma rho c N 0 =
      List.replicate N Tg ∧
    ∀ m : ℕ,
      (fun T => update_wall_temp_array T alpha dt dx h Tg epsilon sigma rho c N 0)^[m]
        (List.replicate N Tg) = List.replicate N Tg := by
  have key : update_wall_temp_array (List.replicate N Tg) alpha dt dx h Tg
      epsilon sigma rho c N 0 = List.replicate N Tg := by
    unfold update_wall_temp_array
    rw [List.eq_replicate_iff]
    refine ⟨by simp, ?_⟩
    intro b hb
    simp only [List.mem_map, List.mem_range] at hb
    obtain ⟨i, hi, rfl⟩ := hb
    by_cases h0 : i = 0
    · subst h0
      rw [if_pos rfl, getD_replicate_lt (by omega : 0 < N), getD_replicate_lt (by omega : 1 < N)]
      ring
    · by_cases hl : i = N - 1
      · rw [if_neg h0, if_pos hl, getD_replicate_lt (by omega : N - 1 < N),
          getD_replicate_lt (by omega : N - 2 < N)]
        ring
      · rw [if_neg h0, if_neg hl, getD_replicate_lt hi,
          getD_replicate_lt (by omega : i + 1 < N), getD_replicate_lt (by omega : i - 1 < N)]
        ring
  refine ⟨key, ?_⟩
  intro m
  induction m with
  | zero => rfl
  | succ m ih => rw [Function.iterate_succ_apply', ih]; exact key

/-- Witness for C7 at `N = 2`, `Tg = 300`, unit coefficients, including a
five-fold repeated application. -/
theorem C7_uniform_fixed_point_witness :
    2 ≤ 2 ∧ (0 : ℝ) < 1 ∧
    update_wall_temp_array (List.replicate 2 (300 : ℝ)) 1 1 1 1 300 1 1 1 1 2 0 =
      List.replicate 2 (300 : ℝ) ∧
    (fun T => update_wall_temp_array T 1 1 1 1 (300 : ℝ) 1 1 1 1 2 0)^[5]
      (List.replicate 2 (300 : ℝ)) = List.replicate 2 (300 : ℝ) :=
  ⟨by norm_num, by norm_num,
    (C7_uniform_fixed_point 2 (by norm_num) 300 1 1 1 1 1 1 1 1 (by norm_num) (by norm_num)
      (by norm_num) (by norm_num) (by norm_num) (by norm_num) (by norm_num)).1,
    (C7_uniform_fixed_point 2 (by norm_num) 300 1 1 1 1 1 1 1 1 (by norm_num) (by norm_num)
      (by norm_num) (by norm_num) (by norm_num) (by norm_num) (by norm_num)).2 5⟩

end ZoneModelOne
